import Mathlib

/-!
Verification of the conversational kiosk front end (Gemini greeter).

Each JavaScript component is shallowly embedded as executable Lean
definitions: pure functions become Lean functions, stateful handlers
become explicit state-passing functions on record types, and the
asynchronous engine events (speech-recognition results and errors,
utterance end/error events, animation-load settlement) become explicit
event parameters.  All definitions are translated from the source files
(`js/conversation.js`, `js/tts.js`, `js/stt.js`, `js/main.js`,
`js/avatar.js` and the improved AvatarAnimator iteration).
-/

namespace Conversation

/-- The default fallback response from `conversation.js`
(`fallbackResponses.default`). -/
def fallbackDefault : String :=
  "I\x27m having trouble connecting to my AI brain. Could you try again in a moment?"

/-- Embedding of `Conversation.getResponse` from `js/conversation.js`.
The remote Gemini call `window.geminiAI.generateResponse(prompt)` is a
parameter `gen`: `.ok r` models the promise resolving with `r`, `.error`
models it throwing or rejecting (caught by the `try`/`catch`).  The result
is the resolved response text together with a flag recording whether the
remote generator was invoked at all.  The Lean function is total, mirroring
that `getResponse` never rejects: every failure path resolves to the
default fallback message. -/
def getResponse (userInput : String) (gen : Except Unit String) : String × Bool :=
  if userInput = "" then (fallbackDefault, false)
  else
    match gen with
    | .ok r => (r, true)
    | .error _ => (fallbackDefault, true)

end Conversation

namespace Tts

/-- Sentence boundary punctuation recognized by the split regex
`/(?<=[.!?])\s+/` in `TextToSpeech.splitIntoSentences`. -/
def isPunct (c : Char) : Bool := c = '.' || c = '!' || c = '?'

/-- Whitespace as matched by `\s` (the characters relevant to this code). -/
def isWs (c : Char) : Bool := c = ' ' || c = '\t' || c = '\n' || c = '\r'

/-- JavaScript `String.prototype.trim`: strip leading and trailing
whitespace. -/
def jsTrim (s : String) : String :=
  String.mk (((s.toList.dropWhile isWs).reverse.dropWhile isWs).reverse)

/-- JavaScript `String.prototype.toLowerCase` (ASCII, the relevant range
for this code). -/
def jsToLower (s : String) : String :=
  String.mk (s.toList.map Char.toLower)

/-- Fold state for the sentence splitter: completed chunks (reversed),
the current chunk (reversed), whether we are inside a whitespace run that
started a split, and whether the previous character was punctuation. -/
structure SplitSt where
  done : List String
  cur : List Char
  splitting : Bool
  prevPunct : Bool
deriving Repr

/-- One character step of the JavaScript split `/(?<=[.!?])\s+/`: a split
point is a maximal whitespace run whose first character is immediately
preceded by `.`, `!` or `?`. -/
def splitStep (st : SplitSt) (c : Char) : SplitSt :=
  if st.splitting then
    if isWs c then st
    else { st with cur := [c], splitting := false, prevPunct := isPunct c }
  else
    if isWs c && st.prevPunct then
      { done := (String.mk st.cur.reverse) :: st.done, cur := [],
        splitting := true, prevPunct := false }
    else
      { st with cur := c :: st.cur, prevPunct := isPunct c }

/-- Embedding of `TextToSpeech.splitIntoSentences`:
`text.split(/(?<=[.!?])\s+/)`.  A trailing split (text ending in
whitespace after punctuation) produces a trailing empty string, exactly as
`String.prototype.split` does. -/
def splitIntoSentences (text : String) : List String :=
  let fin := text.toList.foldl splitStep ⟨[], [], false, false⟩
  if fin.splitting then (("" : String) :: fin.done).reverse
  else ((String.mk fin.cur.reverse) :: fin.done).reverse

/-- One queued utterance of `TextToSpeech.speak`.  `isFirst` and `isLast`
record whether the chunk's index `i` in the `sentences` array was `0`
resp. `sentences.length - 1`; only those chunks carry the caller-visible
`onStart` resp. terminal `onEnd` wiring. -/
structure Chunk where
  text : String
  isFirst : Bool
  isLast : Bool
deriving Repr, DecidableEq

/-- The chunk-building loop of `speak`: iterate over the sentences with
their indices, skipping sentences that are empty after trimming
(`if (!sentence) continue;`). -/
def buildQueueGo (sents : List String) (i : Nat) (total : Nat) : List Chunk :=
  match sents with
  | [] => []
  | s :: rest =>
      if jsTrim s = "" then buildQueueGo rest (i + 1) total
      else ⟨jsTrim s, decide (i = 0), decide (i = total - 1)⟩ :: buildQueueGo rest (i + 1) total

/-- The utterance queue built by one `speak(text, ...)` call. -/
def buildQueue (text : String) : List Chunk :=
  let ss := splitIntoSentences text
  buildQueueGo ss 0 ss.length

/-- Execution of the utterance queue.  Each spoken utterance settles with
exactly one event, `true` for `end` and `false` for `error` (the Web
Speech synthesizer fires one or the other).  Per the handlers installed by
`speak`: a non-last chunk's `end` advances the queue via
`speakNextInQueue`; the last chunk's `end` fires the terminal `onEnd`; an
`error` fires the terminal `onEnd` only when the chunk is the last one
(`if (i === sentences.length - 1 && this.onEndCallback)`), otherwise
nothing advances the queue.  The value is the number of terminal `onEnd`
invocations. -/
def runQueue : List Chunk → List Bool → Nat
  | [], _ => 0
  | _ :: _, [] => 0
  | u :: rest, ok :: outs =>
      if ok then
        if u.isLast then 1 else runQueue rest outs
      else
        if u.isLast then 1 else 0

/-- Number of caller-visible `onEnd` invocations of one
`speak(text, onStart, onEnd)` call, given the settlement outcomes of the
successively spoken utterances. -/
def onEndCount (text : String) (outcomes : List Bool) : Nat :=
  runQueue (buildQueue text) outcomes

/-- Whether the last element of the sentence split is non-empty after
trimming, i.e. whether the built queue ends with the chunk that carries
the terminal `onEnd` wiring. -/
def lastIsRealSentence (text : String) : Bool :=
  match (splitIntoSentences text).getLast? with
  | some s => decide (jsTrim s ≠ "")
  | none => false

end Tts

namespace Stt

/-- The `conversationEndingPhrases` array of `js/stt.js`. -/
def conversationEndingPhrases : List String :=
  ["thanks", "thank you", "cool thanks", "cool thank you", "great thanks",
   "awesome thanks", "goodbye", "bye", "ok thanks", "okay thanks",
   "that\x27s great thanks", "perfect thanks", "good thanks"]

/-- Substring search on character lists: does `pat` occur contiguously in
the second list?  (JavaScript `String.prototype.includes`.) -/
def isSubstrGo : List Char → List Char → Bool
  | pat, [] => pat.isEmpty
  | pat, c :: rest => List.isPrefixOf pat (c :: rest) || isSubstrGo pat rest

/-- JavaScript `haystack.includes(pat)`. -/
def isSubstr (pat haystack : String) : Bool := isSubstrGo pat.toList haystack.toList

/-- The ending-phrase test of `recognition.onresult`:
`this.conversationEndingPhrases.some(phrase =>
this.lastUserPhrase.includes(phrase.toLowerCase()))`, where
`lastUserPhrase` is the lowercased, trimmed transcript. -/
def detectsEndingPhrase (lastPhrase : String) : Bool :=
  conversationEndingPhrases.any (fun p => isSubstr (Tts.jsToLower p) lastPhrase)

/-- `this.pauseAfterConversationEnd` in `js/stt.js` (milliseconds). -/
def pauseAfterConversationEnd : Nat := 8000

/-- `this.pauseAfterAiResponse` in `js/stt.js` (milliseconds). -/
def pauseAfterAiResponse : Nat := 5000

/-- State of the `SpeechToText` controller (`js/stt.js`).
`engineContinuous` is `this.recognition.continuous` (set to `false` by
`initRecognition` and never changed); `errCounts` is the
`this.errorCounts` object, an association list from error kind to count. -/
structure SttState where
  isSupported : Bool
  hasRecognition : Bool
  engineContinuous : Bool
  isListening : Bool
  isSpeaking : Bool
  transcript : String
  lastUserPhrase : String
  continuous : Bool
  noSpeechAfterEndingPhrase : Bool
  aiJustResponded : Bool
  errCounts : List (String × Nat)
deriving Repr, DecidableEq

/-- Lookup in the `errorCounts` object (`this.errorCounts[k] || 0`). -/
def countOf (m : List (String × Nat)) (k : String) : Nat :=
  match m.find? (fun p => p.fst == k) with
  | some p => p.snd
  | none => 0

/-- Assignment `this.errorCounts[k] = v`. -/
def setCount (m : List (String × Nat)) (k : String) (v : Nat) : List (String × Nat) :=
  (k, v) :: m.filter (fun p => p.fst != k)

/-- Increment `this.errorCounts[k] = (this.errorCounts[k] || 0) + 1`. -/
def bumpCount (m : List (String × Nat)) (k : String) : List (String × Nat) :=
  setCount m k (countOf m k + 1)

/-- `initRecognition`: creates a fresh engine instance and sets
`this.recognition.continuous = false` (the success path; a constructor
failure would clear `isSupported`, which `start` has already checked). -/
def initRecognition (s : SttState) : SttState :=
  if !s.isSupported then s
  else { s with hasRecognition := true, engineContinuous := false }

/-- How a `start()` call settles. -/
inductive StartOutcome
  | rejectedNotSupported
  | resolvedFalse
  | resolvedTrue
  | rejectedStartError
deriving Repr, DecidableEq

/-- Result of `start()`: the new controller state, how the returned
promise settles, and the error kind surfaced through `onErrorCallback`
(if any). -/
structure StartOut where
  state : SttState
  outcome : StartOutcome
  errorCb : Option String
deriving Repr, DecidableEq

/-- Embedding of `SpeechToText.start` (`js/stt.js`).  `startThrows` models
whether the underlying `this.recognition.start()` throws synchronously.
Faithful to the source, the promise resolves `true` immediately after the
engine call returns: it does not wait for the engine's `onstart` event,
and there is no timeout of any kind in this function. -/
def sttStart (s : SttState) (startThrows : Bool) : StartOut :=
  if !s.isSupported then
    { state := s, outcome := .rejectedNotSupported, errorCb := some "not-supported" }
  else
    let s1 := if !s.hasRecognition then initRecognition s else s
    if s1.isListening then { state := s1, outcome := .resolvedFalse, errorCb := none }
    else if startThrows then
      { state := s1, outcome := .rejectedStartError, errorCb := some "start-error" }
    else { state := s1, outcome := .resolvedTrue, errorCb := none }

/-- Result of `stop()`: the controller state afterwards and whether an
engine `recognition.stop()` call was issued. -/
structure StopOut where
  state : SttState
  engineStopRequested : Bool
deriving Repr, DecidableEq

/-- Embedding of `SpeechToText.stop` (`js/stt.js`):
`if (this.recognition && this.isListening) { try { this.recognition.stop(); } ... }`.
No field of the controller is written and no callback is invoked; the
transition to not-listening happens only in the engine's `onend`
handler. -/
def sttStop (s : SttState) : StopOut :=
  { state := s, engineStopRequested := s.hasRecognition && s.isListening }

/-- Embedding of the `recognition.onstart` handler: the controller
becomes listening and the start callback fires (the `Bool` records the
callback invocation). -/
def sttOnStart (s : SttState) : SttState × Bool :=
  ({ s with isListening := true, isSpeaking := false }, true)

/-- Result of the `recognition.onresult` handler: new state, the
transcript delivered to `onResultCallback`, whether a continuous-mode
restart was scheduled, and the length in milliseconds of the
ending-phrase suppression window armed by this result (if any). -/
structure ResultOut where
  state : SttState
  resultCb : String
  restartScheduled : Bool
  suppressWindowMs : Option Nat
deriving Repr, DecidableEq

/-- Embedding of the `recognition.onresult` handler (`js/stt.js`).  The
transcript is stored, lowercased and trimmed into `lastUserPhrase`; if it
contains a conversation-ending phrase, `noSpeechAfterEndingPhrase` is set
and a timer is armed to clear it after `pauseAfterConversationEnd`
milliseconds.  In continuous mode (`this.continuous &&
!this.recognition.continuous`) a restart of recognition is scheduled. -/
def sttOnResult (s : SttState) (result : String) : ResultOut :=
  let lastPhrase := Tts.jsTrim (Tts.jsToLower result)
  let ending := detectsEndingPhrase lastPhrase
  let s1 : SttState :=
    { s with
      transcript := result
      lastUserPhrase := lastPhrase
      noSpeechAfterEndingPhrase :=
        if ending then true else s.noSpeechAfterEndingPhrase }
  { state := s1,
    resultCb := result,
    restartScheduled := s.continuous && !s.engineContinuous,
    suppressWindowMs := if ending then some pauseAfterConversationEnd else none }

/-- Result of the `recognition.onend` handler. -/
structure EndOut where
  state : SttState
  endCbFired : Bool
  restartScheduled : Bool
deriving Repr, DecidableEq

/-- Embedding of the `recognition.onend` handler (`js/stt.js`): listening
ends, the end callback fires, and in continuous mode a restart is
scheduled after a short delay. -/
def sttOnEnd (s : SttState) : EndOut :=
  let s1 : SttState := { s with isListening := false, isSpeaking := false }
  { state := s1,
    endCbFired := true,
    restartScheduled := s.continuous && !s.engineContinuous }

/-- Result of the `recognition.onerror` handler: new state, the
normalized error kind surfaced through `onErrorCallback`, and whether a
restart of recognition will be attempted (the scheduled timer together
with its fire-time `this.continuous` recheck, evaluated against the
handler's resulting state assuming no intervening events). -/
structure ErrOut where
  state : SttState
  errorCb : Option String
  restartAttempted : Bool
deriving Repr, DecidableEq

/-- Embedding of the `recognition.onerror` handler (`js/stt.js`).  In
order: `isListening` is cleared; a `no-speech` during the
AI-just-responded grace period is surfaced as `no-speech-after-response`;
a `no-speech` during the ending-phrase suppression window is surfaced as
`no-speech-expected` (both without touching `errorCounts`); otherwise the
per-kind count is incremented, more than three consecutive `no-speech`
errors reset the count and surface `no-speech-reset`, and any other kind
resets the `no-speech` count and is surfaced as-is.  Restarts are never
attempted for `not-allowed` or `audio-capture` errors. -/
def sttOnError (s : SttState) (kind : String) : ErrOut :=
  let s0 := { s with isListening := false }
  if kind == "no-speech" && s.aiJustResponded then
    { state := s0, errorCb := some "no-speech-after-response",
      restartAttempted := s.continuous && !s.engineContinuous }
  else if kind == "no-speech" && s.noSpeechAfterEndingPhrase then
    { state := s0, errorCb := some "no-speech-expected",
      restartAttempted := s.continuous && !s.engineContinuous }
  else
    let s1 := { s0 with errCounts := bumpCount s0.errCounts kind }
    if kind == "no-speech" && decide (countOf s1.errCounts "no-speech" > 3) then
      let s2 : SttState := { s1 with errCounts := setCount s1.errCounts "no-speech" 0 }
      { state := s2,
        errorCb := some "no-speech-reset",
        restartAttempted := s.continuous }
    else
      let s2 :=
        if kind != "no-speech" then
          { s1 with errCounts := setCount s1.errCounts "no-speech" 0 }
        else s1
      { state := s2, errorCb := some kind,
        restartAttempted := s.continuous && !s.engineContinuous &&
          kind != "not-allowed" && kind != "audio-capture" }

/-- Embedding of `SpeechToText.setAiJustResponded`: sets the grace flag
and, when setting it, arms a timer that clears it after
`pauseAfterAiResponse` milliseconds (returned as the second component). -/
def setAiJustResponded (s : SttState) (v : Bool) : SttState × Option Nat :=
  ({ s with aiJustResponded := v }, if v then some pauseAfterAiResponse else none)

end Stt

namespace Orchestrator

/-- Message shown when the conversation has not been started yet. -/
def msgTriggerFirst : String :=
  "Please trigger the welcome message first to start the conversation."

/-- The please-wait rejection notice of `toggleListening` in `js/main.js`. -/
def msgPleaseWait : String :=
  "Please wait while I\x27m processing your previous request."

/-- The escalation message of `onSpeechError` in `js/main.js`. -/
def msgTypeInstead : String :=
  "Speech recognition isn\x27t working reliably. You can type your questions instead."

/-- The reset confirmation message of `resetConversation` in `js/main.js`. -/
def msgResetConfirm : String :=
  "Conversation reset. Click \x27Trigger Welcome\x27 to start a new conversation."

/-- The `switch(error)` of `onSpeechError` in `js/main.js`, mapping a
normalized error kind to the user-facing status message. -/
def errorMessageFor (error : String) : String :=
  if error == "network" then "Network error. Please check your internet connection."
  else if error == "not-allowed" then "Microphone access denied. Please allow access."
  else if error == "aborted" then "Speech recognition was aborted."
  else if error == "audio-capture" then "No microphone detected."
  else if error == "no-speech" then "No speech detected. Please try again."
  else if error == "not-supported" then "Speech recognition is not supported in this browser."
  else if error == "start-error" then "Error starting speech recognition."
  else if error == "no-match" then "Sorry, I didn\x27t recognize what you said."
  else if Stt.isSubstr "network" error || Stt.isSubstr "connectivity" error then
    "Network connectivity issues detected."
  else "Error with speech recognition. Try again."

/-- The orchestrator state of `js/main.js`: the module-level `let`
bindings plus the two externally owned flags it reads (`stt.isListening`,
`tts.isSpeaking`), the chat log (`#messages`), the presence of the
`#manual-input` element, and the status line. -/
structure MainState where
  conversationActive : Bool
  isProcessingResponse : Bool
  micPermissionGranted : Bool
  speechRecognitionFailures : Nat
  manualInputMode : Bool
  manualInputPresent : Bool
  sttListening : Bool
  ttsSpeaking : Bool
  messages : List String
  statusText : String
deriving Repr, DecidableEq

/-- The state right after page load. -/
def initialState : MainState :=
  { conversationActive := false, isProcessingResponse := false,
    micPermissionGranted := false, speechRecognitionFailures := 0,
    manualInputMode := false, manualInputPresent := false,
    sttListening := false, ttsSpeaking := false,
    messages := [], statusText := "" }

/-- Embedding of `toggleManualInput` (`js/main.js`): if the
`#manual-input` element exists it is removed and manual mode ends,
otherwise the input is created and manual mode begins.  The function is a
toggle, not an idempotent enable. -/
def toggleManualInput (s : MainState) : MainState :=
  if s.manualInputPresent then
    { s with
      manualInputPresent := false
      manualInputMode := false
      statusText := "Click microphone to speak" }
  else
    { s with
      manualInputPresent := true
      manualInputMode := true
      statusText := "Typing mode (speech unavailable)" }

/-- Result of `toggleListening`. -/
structure ToggleOut where
  state : MainState
  startedRecognition : Bool
  requestedSttStop : Bool
  requestedTtsStop : Bool
deriving Repr, DecidableEq

/-- Embedding of `toggleListening` (`js/main.js`): rejected with a notice
when the conversation is inactive or a response is still processing;
stops recognition when already listening; otherwise cancels any ongoing
speech output and invokes `stt.start()` via `startSpeechRecognition`. -/
def toggleListening (s : MainState) : ToggleOut :=
  if !s.conversationActive then
    let s1 : MainState := { s with messages := s.messages ++ [msgTriggerFirst] }
    { state := s1, startedRecognition := false,
      requestedSttStop := false, requestedTtsStop := false }
  else if s.isProcessingResponse then
    let s1 : MainState := { s with messages := s.messages ++ [msgPleaseWait] }
    { state := s1, startedRecognition := false,
      requestedSttStop := false, requestedTtsStop := false }
  else if s.sttListening then
    { state := s, startedRecognition := false,
      requestedSttStop := true, requestedTtsStop := false }
  else
    let s1 : MainState := { s with ttsSpeaking := false, statusText := "Starting..." }
    { state := s1, startedRecognition := true,
      requestedSttStop := false, requestedTtsStop := s.ttsSpeaking }

/-- The `.then(started => ...)` continuation of `startSpeechRecognition`:
a successful recognition start resets the failure counter. -/
def startRecognitionSucceeded (s : MainState) : MainState :=
  { s with speechRecognitionFailures := 0 }

/-- Result of `onSpeechResult`: the state after the handler has run to
completion, whether the remote answer generator was invoked, and the
response text handed to `tts.speak` (if any). -/
structure ResultOut where
  state : MainState
  generatorCalled : Bool
  spokeText : Option String
deriving Repr, DecidableEq

/-- Embedding of `onSpeechResult` (`js/main.js`).  There is no check of
`isProcessingResponse` anywhere in this handler: the transcript is posted
to the chat, the flag is set, `conversation.getResponse` is awaited (the
remote call outcome is the parameter `gen`), the response is posted and
spoken, and the flag is cleared in the `finally` block.  The transient
`"..."` processing indicator is appended and removed again before the
response is posted, so it does not appear in the final log. -/
def onSpeechResult (s : MainState) (transcript : String) (gen : Except Unit String) :
    ResultOut :=
  let s1 : MainState :=
    { s with messages := s.messages ++ [transcript], isProcessingResponse := true }
  let r := Conversation.getResponse transcript gen
  let s2 : MainState := { s1 with messages := s1.messages ++ [r.fst] }
  { state := { s2 with isProcessingResponse := false },
    generatorCalled := r.snd, spokeText := some r.fst }

/-- Embedding of `handleManualInput` (`js/main.js`): trims the typed text
and, when non-empty, feeds it into `onSpeechResult` — the same transcript
pathway used for speech, with no additional guard. -/
def handleManualInput (s : MainState) (typed : String) (gen : Except Unit String) :
    ResultOut :=
  let text := Tts.jsTrim typed
  if text != "" then onSpeechResult s text gen
  else { state := s, generatorCalled := false, spokeText := none }

/-- Embedding of `onSpeechError` (`js/main.js`).  The status line shows
the mapped message, the failure counter is incremented unconditionally,
the first failure posts a chat notice, and from the second failure on the
handler schedules `toggleManualInput` (the 500 ms timer is modelled as
running before the next event). -/
def onSpeechError (s : MainState) (error : String) : MainState :=
  let msg := errorMessageFor error
  let s1 : MainState :=
    { s with
      speechRecognitionFailures := s.speechRecognitionFailures + 1
      statusText := msg }
  let s2 : MainState :=
    if s1.speechRecognitionFailures == 1 then
      { s1 with messages := s1.messages ++ ["I\x27m having trouble hearing you: " ++ msg] }
    else s1
  if s1.speechRecognitionFailures ≥ 2 then
    toggleManualInput { s2 with messages := s2.messages ++ [msgTypeInstead] }
  else s2

/-- Result of `resetConversation`. -/
structure ResetOut where
  state : MainState
  requestedTtsStop : Bool
  requestedSttStop : Bool
deriving Repr, DecidableEq

/-- Embedding of `resetConversation` (`js/main.js`): cancels ongoing
speech output (`tts.stop()` synchronously clears `isSpeaking`), requests
a recognition stop when listening (`stt.stop()` does not itself clear
`stt.isListening`, cf. `Stt.sttStop`), clears the chat log and posts the
reset confirmation, and clears the `active` and `processing` flags.  Note
which fields it does not touch: `speechRecognitionFailures`,
`manualInputMode` and `manualInputPresent` are left as they were. -/
def resetConversation (s : MainState) : ResetOut :=
  let s1 : MainState :=
    { s with
      ttsSpeaking := false
      messages := [msgResetConfirm]
      conversationActive := false
      isProcessingResponse := false
      statusText := "Click microphone to speak" }
  { state := s1, requestedTtsStop := s.ttsSpeaking, requestedSttStop := s.sttListening }

/-- Result of `triggerWelcome`. -/
structure WelcomeOut where
  state : MainState
  requestedTtsStop : Bool
  spokeWelcome : String
deriving Repr, DecidableEq

/-- Embedding of `triggerWelcome` (`js/main.js`).  `welcome` stands for
the randomly picked `conversation.getWelcomeMessage()`. -/
def triggerWelcome (s : MainState) (welcome : String) : WelcomeOut :=
  let s1 : MainState :=
    { s with
      ttsSpeaking := false
      conversationActive := true
      messages := s.messages ++ [welcome]
      statusText := "Click microphone to speak" }
  { state := s1, requestedTtsStop := s.ttsSpeaking, spokeWelcome := welcome }

end Orchestrator

namespace AvatarBasic

/-- State of the basic `AvatarAnimator` in `js/avatar.js`:
`currentState` and the number of engine animation loads currently in
flight (a `lottie.loadAnimation` whose `DOMLoaded` event or 2-second
fallback timeout has not yet resolved the wrapping promise). -/
structure AvState where
  currentState : String
  loadsInFlight : Nat
deriving Repr, DecidableEq

/-- The initial avatar state after `init` has loaded the idle visual. -/
def avInit : AvState := { currentState := "idle", loadsInFlight := 0 }

/-- Embedding of `AvatarAnimator.loadAnimation` (`js/avatar.js`): the
previous animation is destroyed and a new engine load starts
unconditionally — there is no in-flight guard of any kind in this
iteration. -/
def loadAnimation (s : AvState) : AvState :=
  { s with loadsInFlight := s.loadsInFlight + 1 }

/-- An in-flight engine load settles (`DOMLoaded` or the 2 s timeout). -/
def loadSettled (s : AvState) : AvState :=
  { s with loadsInFlight := s.loadsInFlight - 1 }

/-- Embedding of `AvatarAnimator.startTalking` (`js/avatar.js`): no-op if
already talking, otherwise immediately calls `loadAnimation` (without
awaiting it) and records the new visual state. -/
def startTalking (s : AvState) : AvState :=
  if s.currentState == "talking" then s
  else { loadAnimation s with currentState := "talking" }

/-- Embedding of `AvatarAnimator.stopTalking` (`js/avatar.js`). -/
def stopTalking (s : AvState) : AvState :=
  if s.currentState == "idle" then s
  else { loadAnimation s with currentState := "idle" }

end AvatarBasic

namespace AvatarImproved

/-- The talking animation asset URL of the improved `AvatarAnimator`. -/
def talkingAnimation : String :=
  "https://lottie.host/14f75e6d-e9ac-4f25-b48a-197002332f02/lisRG3x07s.json"

/-- The idle animation asset URL of the improved `AvatarAnimator`. -/
def idleAnimation : String :=
  "https://lottie.host/aec2610e-f5fb-4861-8c9b-bf26695a655b/epnReZjYSz.json"

/-- State of the improved `AvatarAnimator` iteration (the variant with
`isLoadingAnimation` / `pendingAnimationChange`): the visual state, the
in-flight guard, the single pending target slot, the path of the engine
load currently in flight, a count of concurrently in-flight engine loads,
and whether the controller fell back to the static image. -/
structure AvState where
  currentState : String
  isLoadingAnimation : Bool
  pendingAnimationChange : Option String
  loadingPath : Option String
  loadsInFlight : Nat
  fellBack : Bool
deriving Repr, DecidableEq

/-- State after construction, before any load. -/
def avInit : AvState :=
  { currentState := "idle", isLoadingAnimation := false,
    pendingAnimationChange := none, loadingPath := none,
    loadsInFlight := 0, fellBack := false }

/-- The synchronous prefix of the improved `loadAnimation` (up to its
first `await`): while a load is in flight the request is only recorded in
`pendingAnimationChange`; otherwise a new engine load begins.
`createOk = false` collapses the retry loop around a synchronously
throwing `lottie.loadAnimation`: after `maxRetries` attempts the
controller falls back to the static image without a load in flight. -/
def requestLoad (s : AvState) (path : String) (createOk : Bool) : AvState :=
  if s.isLoadingAnimation then { s with pendingAnimationChange := some path }
  else if createOk then
    { s with
      isLoadingAnimation := true
      loadingPath := some path
      loadsInFlight := s.loadsInFlight + 1 }
  else { s with fellBack := true }

/-- The continuation of the improved `loadAnimation` after the awaited
load promise settles: if a pending target was recorded, it is consumed
and the recursive `loadAnimation` call immediately begins loading it
(`nextCreateOk` plays the same role as `createOk` for that call);
otherwise the guard is released. -/
def settleLoad (s : AvState) (nextCreateOk : Bool) : AvState :=
  if s.isLoadingAnimation then
    match s.pendingAnimationChange with
    | some q =>
        if nextCreateOk then
          { s with
            pendingAnimationChange := none
            loadingPath := some q
            loadsInFlight := s.loadsInFlight - 1 + 1 }
        else
          { s with
            pendingAnimationChange := none
            isLoadingAnimation := false
            loadingPath := none
            loadsInFlight := s.loadsInFlight - 1
            fellBack := true }
    | none =>
        { s with
          isLoadingAnimation := false
          loadingPath := none
          loadsInFlight := s.loadsInFlight - 1 }
  else s

/-- Embedding of the improved `startTalking`: debounced against the
current visual state, updates the state first, then requests the load. -/
def startTalking (s : AvState) (createOk : Bool) : AvState :=
  if s.currentState == "talking" then s
  else requestLoad { s with currentState := "talking" } talkingAnimation createOk

/-- Embedding of the improved `stopTalking`. -/
def stopTalking (s : AvState) (createOk : Bool) : AvState :=
  if s.currentState == "idle" then s
  else requestLoad { s with currentState := "idle" } idleAnimation createOk

/-- The event-loop interleavings relevant to the avatar controller: a
visual switch request (from any of the upstream triggers) or the
settlement of the in-flight load. -/
inductive AvEvent
  | startTalk (createOk : Bool)
  | stopTalk (createOk : Bool)
  | reqLoad (path : String) (createOk : Bool)
  | settle (nextCreateOk : Bool)
deriving Repr, DecidableEq

/-- One event-loop step of the improved controller. -/
def avStep (s : AvState) : AvEvent → AvState
  | .startTalk ok => startTalking s ok
  | .stopTalk ok => stopTalking s ok
  | .reqLoad p ok => requestLoad s p ok
  | .settle ok => settleLoad s ok

/-- Run a sequence of events from the initial state. -/
def avRun (evs : List AvEvent) : AvState := evs.foldl avStep avInit

/-- The concurrency invariant of the improved controller: the number of
in-flight engine loads matches the `isLoadingAnimation` guard (so it
never exceeds one), and a pending target only exists while a load is in
flight. -/
def avInv (s : AvState) : Prop :=
  s.loadsInFlight = (if s.isLoadingAnimation then 1 else 0) ∧
    (s.isLoadingAnimation = false → s.pendingAnimationChange = none)

end AvatarImproved


namespace Demo

/-- A session that is actively processing a transcript. -/
def processingState : Orchestrator.MainState :=
  { Orchestrator.initialState with conversationActive := true, isProcessingResponse := true }

/-- A fresh active session (welcome triggered, nothing else). -/
def freshActive : Orchestrator.MainState :=
  { Orchestrator.initialState with conversationActive := true }

/-- A session in the middle of processing with speech output and
recognition both running and one prior recognition failure. -/
def midProcessing : Orchestrator.MainState :=
  { Orchestrator.initialState with
    conversationActive := true
    isProcessingResponse := true
    ttsSpeaking := true
    sttListening := true
    speechRecognitionFailures := 1 }

/-- A baseline recognition controller state: supported, engine instance
created (`recognition.continuous = false`), not listening. -/
def sttBase : Stt.SttState :=
  { isSupported := true, hasRecognition := true, engineContinuous := false,
    isListening := false, isSpeaking := false, transcript := "",
    lastUserPhrase := "", continuous := false,
    noSpeechAfterEndingPhrase := false, aiJustResponded := false,
    errCounts := [] }

/-- A controller that is currently listening. -/
def sttListeningState : Stt.SttState := { sttBase with isListening := true }

/-- A controller in continuous mode. -/
def sttContinuous : Stt.SttState := { sttBase with continuous := true }

/-- A controller inside the AI-just-responded grace period. -/
def sttAiResponded : Stt.SttState := { sttBase with aiJustResponded := true }

/-- A controller with the ending-phrase suppression window armed and the
AI-just-responded grace period inactive. -/
def sttEndingArmed : Stt.SttState := { sttBase with noSpeechAfterEndingPhrase := true }

end Demo

/-- Claim C10: `Conversation.getResponse` never rejects; an empty (falsy)
input resolves to the default fallback message without invoking the
remote generator, and a throwing or rejecting generator call also
resolves to the same default fallback message.  (The embedding is a total
function, so every input resolves.) -/
theorem c10_getResponse_total_fallback :
    (∀ gen : Except Unit String,
      Conversation.getResponse "" gen = (Conversation.fallbackDefault, false)) ∧
    (∀ (input : String) (e : Unit),
      (Conversation.getResponse input (Except.error e)).fst = Conversation.fallbackDefault) := by
  constructor
  · intro gen
    simp [Conversation.getResponse]
  · intro input e
    by_cases h : input = "" <;> simp [Conversation.getResponse, h]

/-- Claim C3 counterexample: with the controller listening, `stop()`
returns with `listening` still `true` and without having fired the end
callback — the controller state is bit-for-bit unchanged, refuting
"listening is never true immediately after stop() returns" and "the end
callback has fired". -/
theorem c3_counterexample :
    (Stt.sttStop Demo.sttListeningState).state.isListening = true ∧
    (Stt.sttStop Demo.sttListeningState).state = Demo.sttListeningState := by
  exact ⟨rfl, rfl⟩

/-- Claim C3 (amended): `stop()` is idempotent and leaves the controller
state entirely unchanged; it requests an engine stop exactly when a
recognition instance exists and the controller is listening; the
not-listening transition and the end callback occur only when the
engine's end event arrives (the `onend` handler). -/
theorem c3_stop_requests_only :
    ∀ s : Stt.SttState,
      (Stt.sttStop s).state = s ∧
      (Stt.sttStop s).engineStopRequested = (s.hasRecognition && s.isListening) ∧
      (Stt.sttStop (Stt.sttStop s).state).engineStopRequested =
        (Stt.sttStop s).engineStopRequested ∧
      (Stt.sttOnEnd s).state.isListening = false ∧
      (Stt.sttOnEnd s).endCbFired = true := by
  intro s
  exact ⟨rfl, rfl, rfl, rfl, rfl⟩

/-- Claim C6 counterexample: in a supported, non-listening state where
the engine call does not throw, `start()` resolves `true` immediately
while the controller is still not listening — no started event has been
observed and no timeout exists, refuting "resolves true only once the
engine's started event has fired". -/
theorem c6_counterexample :
    (Stt.sttStart Demo.sttBase false).outcome = Stt.StartOutcome.resolvedTrue ∧
    (Stt.sttStart Demo.sttBase false).state.isListening = false := by
  exact ⟨rfl, rfl⟩

/-- Claim C6 (amended): `start()` rejects immediately when unsupported
(surfacing `not-supported`), resolves `false` when already listening,
rejects with `start-error` when the engine call throws synchronously, and
otherwise resolves `true` immediately — without waiting for the engine's
started event and with no timeout path; `listening` is unchanged by
`start()` itself and becomes true only in the `onstart` handler. -/
theorem c6_start_immediate :
    ∀ (s : Stt.SttState) (b : Bool),
      (Stt.sttStart s b).outcome =
        (if !s.isSupported then Stt.StartOutcome.rejectedNotSupported
         else if s.isListening then Stt.StartOutcome.resolvedFalse
         else if b then Stt.StartOutcome.rejectedStartError
         else Stt.StartOutcome.resolvedTrue) ∧
      (Stt.sttStart s b).state.isListening = s.isListening ∧
      (Stt.sttStart s b).errorCb =
        (if !s.isSupported then some "not-supported"
         else if s.isListening then none
         else if b then some "start-error"
         else none) ∧
      (Stt.sttOnStart s).fst.isListening = true := by
  intro s b
  refine ⟨?_, ?_, ?_, rfl⟩ <;>
    simp only [Stt.sttStart, Stt.initRecognition] <;>
    by_cases h1 : s.isSupported <;> by_cases h2 : s.hasRecognition <;>
      by_cases h3 : s.isListening <;> by_cases h4 : b <;> simp [h1, h2, h3, h4]

/-- Claim C7 counterexample: resetting mid-processing with one prior
recognition failure leaves the failure counter at 1, and the subsequent
`triggerWelcome` therefore starts with a non-zero counter — refuting
"zeroes all counters" and "a fresh session with all failure counters at
zero". -/
theorem c7_counterexample :
    (Orchestrator.resetConversation Demo.midProcessing).state.speechRecognitionFailures ≠ 0 ∧
    (Orchestrator.triggerWelcome (Orchestrator.resetConversation Demo.midProcessing).state
        "Hello and welcome to Gitex Africa").state.speechRecognitionFailures ≠ 0 := by
  exact ⟨by decide, by decide⟩

/-- Claim C7 (amended): `resetConversation`, from any state, cancels
vocalization (when speaking) and requests recognition stop (when
listening), clears the chat log down to the reset confirmation, and
clears the `processing` and `active` flags — but it does not reset the
recognition failure counter, which a subsequent `triggerWelcome` carries
over unchanged into the new session. -/
theorem c7_reset_keeps_counter :
    ∀ (s : Orchestrator.MainState) (w : String),
      (Orchestrator.resetConversation s).requestedTtsStop = s.ttsSpeaking ∧
      (Orchestrator.resetConversation s).requestedSttStop = s.sttListening ∧
      (Orchestrator.resetConversation s).state.messages = [Orchestrator.msgResetConfirm] ∧
      (Orchestrator.resetConversation s).state.conversationActive = false ∧
      (Orchestrator.resetConversation s).state.isProcessingResponse = false ∧
      (Orchestrator.resetConversation s).state.ttsSpeaking = false ∧
      (Orchestrator.resetConversation s).state.speechRecognitionFailures =
        s.speechRecognitionFailures ∧
      (Orchestrator.triggerWelcome (Orchestrator.resetConversation s).state w).state.conversationActive = true ∧
      (Orchestrator.triggerWelcome (Orchestrator.resetConversation s).state w).state.speechRecognitionFailures =
        s.speechRecognitionFailures := by
  intro s w
  exact ⟨rfl, rfl, rfl, rfl, rfl, rfl, rfl, rfl, rfl⟩

/-- Claim C4: three consecutive uncategorized recognition failures from a
fresh session.  The second failure engages manual input as the claim
says, but the third failure calls `toggleManualInput` again and removes
the manual input — the escalation is a toggle, not a one-shot engage. -/
theorem c4_third_failure_disengages :
    (Orchestrator.onSpeechError Demo.freshActive "network").manualInputMode = false ∧
    (Orchestrator.onSpeechError (Orchestrator.onSpeechError Demo.freshActive "network")
        "network").manualInputMode = true ∧
    (Orchestrator.onSpeechError (Orchestrator.onSpeechError
        (Orchestrator.onSpeechError Demo.freshActive "network") "network")
        "network").manualInputMode = false ∧
    (Orchestrator.onSpeechError (Orchestrator.onSpeechError
        (Orchestrator.onSpeechError Demo.freshActive "network") "network")
        "network").manualInputPresent = false := by
  exact ⟨by decide, by decide, by decide, by decide⟩

/-- Claim C1 counterexample: a transcript delivered to `onSpeechResult`
while the session's processing flag is true is not rejected — the remote
answer generator is invoked and no "please wait" notice is posted.  (The
manual input pathway `handleManualInput` feeds typed text straight into
`onSpeechResult`, so this arrival is reachable while processing.) -/
theorem c1_counterexample :
    Demo.processingState.isProcessingResponse = true ∧
    (Orchestrator.onSpeechResult Demo.processingState "hello" (Except.ok "hi")).generatorCalled
      = true ∧
    Orchestrator.msgPleaseWait ∉
      (Orchestrator.onSpeechResult Demo.processingState "hello" (Except.ok "hi")).state.messages := by
  exact ⟨by decide, by decide, by decide⟩

/-- Claim C1 (amended): the "please wait" guard sits in `toggleListening`,
not on the transcript pathway: while the processing flag is true, an
attempt to start listening is rejected with the user-facing "please wait"
notice and recognition is not started, so no new spoken capture begins;
but a transcript delivered directly to `onSpeechResult` (typed manual
input, or an already-running recognition session) is not rejected and is
forwarded to the remote answer generator whenever it is non-empty. -/
theorem c1_guard_in_toggle_only :
    ∀ s : Orchestrator.MainState,
      s.conversationActive = true → s.isProcessingResponse = true →
      (Orchestrator.toggleListening s).startedRecognition = false ∧
      (Orchestrator.toggleListening s).state.messages =
        s.messages ++ [Orchestrator.msgPleaseWait] ∧
      ∀ (t : String) (g : Except Unit String),
        (Orchestrator.onSpeechResult s t g).generatorCalled = decide (t ≠ "") := by
  intro s h1 h2
  refine ⟨?_, ?_, ?_⟩
  · simp [Orchestrator.toggleListening, h1, h2]
  · simp [Orchestrator.toggleListening, h1, h2]
  · intro t g
    by_cases ht : t = "" <;>
      cases g <;> simp [Orchestrator.onSpeechResult, Conversation.getResponse, ht]

/-- Claim C1 witness: the amended guard applied to a concrete session
that is processing — the listen toggle is rejected and a concrete typed
transcript is nevertheless forwarded. -/
theorem c1_guard_witness :
    (Orchestrator.toggleListening Demo.processingState).startedRecognition = false ∧
    (Orchestrator.onSpeechResult Demo.processingState "hello"
        (Except.ok "hi")).generatorCalled = decide ("hello" ≠ "") :=
  ⟨(c1_guard_in_toggle_only Demo.processingState rfl rfl).1,
   (c1_guard_in_toggle_only Demo.processingState rfl rfl).2.2 "hello" (Except.ok "hi")⟩

/-- Claim C9: continuous mode auto-restart policy, for every controller
state and every error kind.  The error handler attempts a restart exactly
when the kind is neither `not-allowed` nor `audio-capture`; the end and
result handlers always schedule a restart in continuous mode; and none of
the handlers changes the engine-level `continuous` flag (which
`initRecognition` set to `false`), so the policy holds along every event
sequence. -/
theorem c9_continuous_restart_policy :
    ∀ (s : Stt.SttState) (kind r : String),
      s.continuous = true → s.engineContinuous = false →
      (Stt.sttOnError s kind).restartAttempted =
        (kind != "not-allowed" && kind != "audio-capture") ∧
      (Stt.sttOnEnd s).restartScheduled = true ∧
      (Stt.sttOnResult s r).restartScheduled = true ∧
      (Stt.sttOnError s kind).state.engineContinuous = s.engineContinuous ∧
      (Stt.sttOnEnd s).state.engineContinuous = s.engineContinuous ∧
      (Stt.sttOnResult s r).state.engineContinuous = s.engineContinuous := by
  intro s kind r h1 h2
  refine ⟨?_, ?_, ?_, ?_, ?_, ?_⟩
  · by_cases hk : kind = "no-speech"
    · subst hk
      simp only [Stt.sttOnError]
      split_ifs <;> simp [h1, h2]
    · simp only [Stt.sttOnError]
      split_ifs with hc1 hc2 hc3 <;>
        simp_all [h1, h2]
  · simp [Stt.sttOnEnd, h1, h2]
  · simp [Stt.sttOnResult, h1, h2]
  · simp only [Stt.sttOnError]
    split_ifs <;> rfl
  · rfl
  · rfl

/-- Claim C9 witness: the policy applied to a concrete continuous-mode
controller, at the permission-denied kind (no restart) with a concrete
result transcript. -/
theorem c9_policy_witness :
    (Stt.sttOnError Demo.sttContinuous "not-allowed").restartAttempted =
      ("not-allowed" != "not-allowed" && "not-allowed" != "audio-capture") ∧
    (Stt.sttOnEnd Demo.sttContinuous).restartScheduled = true ∧
    (Stt.sttOnResult Demo.sttContinuous "hello").restartScheduled = true ∧
    (Stt.sttOnError Demo.sttContinuous "not-allowed").state.engineContinuous =
      Demo.sttContinuous.engineContinuous ∧
    (Stt.sttOnEnd Demo.sttContinuous).state.engineContinuous =
      Demo.sttContinuous.engineContinuous ∧
    (Stt.sttOnResult Demo.sttContinuous "hello").state.engineContinuous =
      Demo.sttContinuous.engineContinuous :=
  c9_continuous_restart_policy Demo.sttContinuous "not-allowed" "hello" rfl rfl

/-- Claim C5 counterexample: after the final transcript "thanks" has
armed the suppression window, a `no-speech` error that arrives while the
AI-just-responded grace flag is also set is surfaced as
`no-speech-after-response`, not as `no-speech-expected` — so "any
subsequent no-speech error is surfaced as no-speech-expected" fails.
(This situation occurs whenever the spoken answer to "thanks" finished
within the last five seconds.) -/
theorem c5_counterexample :
    (Stt.sttOnResult Demo.sttAiResponded "thanks").state.noSpeechAfterEndingPhrase = true ∧
    (Stt.sttOnError (Stt.sttOnResult Demo.sttAiResponded "thanks").state "no-speech").errorCb
      = some "no-speech-after-response" ∧
    (Stt.sttOnError (Stt.sttOnResult Demo.sttAiResponded "thanks").state "no-speech").errorCb
      ≠ some "no-speech-expected" := by
  exact ⟨by decide, by decide, by decide⟩

/-- Claim C5 (amended): a final transcript containing a
conversation-ending phrase arms the 8000 ms suppression window; a
`no-speech` error inside the window is surfaced as `no-speech-expected`
when the AI-just-responded grace flag is clear, and as
`no-speech-after-response` when that flag is set (its check comes first);
in both cases the error leaves the per-kind failure counters untouched. -/
theorem c5_ending_phrase_suppression :
    ∀ (s : Stt.SttState) (t : String),
      Stt.detectsEndingPhrase (Tts.jsTrim (Tts.jsToLower t)) = true →
      ((Stt.sttOnResult s t).state.noSpeechAfterEndingPhrase = true ∧
       (Stt.sttOnResult s t).suppressWindowMs = some Stt.pauseAfterConversationEnd ∧
       Stt.pauseAfterConversationEnd = 8000) ∧
    ∀ s' : Stt.SttState,
      s'.noSpeechAfterEndingPhrase = true →
      (s'.aiJustResponded = false →
        (Stt.sttOnError s' "no-speech").errorCb = some "no-speech-expected" ∧
        (Stt.sttOnError s' "no-speech").state.errCounts = s'.errCounts) ∧
      (s'.aiJustResponded = true →
        (Stt.sttOnError s' "no-speech").errorCb = some "no-speech-after-response" ∧
        (Stt.sttOnError s' "no-speech").state.errCounts = s'.errCounts) := by
  intro s t h1
  refine ⟨⟨?_, ?_, rfl⟩, ?_⟩
  · simp [Stt.sttOnResult, h1]
  · simp [Stt.sttOnResult, h1]
  · intro s' h2
    constructor
    · intro h3
      constructor <;> simp [Stt.sttOnError, h2, h3]
    · intro h3
      constructor <;> simp [Stt.sttOnError, h2, h3]

/-- Claim C5 witness: the suppression applied to the concrete transcript
"thanks" and a concrete armed controller with the grace flag clear. -/
theorem c5_suppression_witness :
    Stt.detectsEndingPhrase (Tts.jsTrim (Tts.jsToLower "thanks")) = true ∧
    (Stt.sttOnResult Demo.sttBase "thanks").state.noSpeechAfterEndingPhrase = true ∧
    (Stt.sttOnError Demo.sttEndingArmed "no-speech").errorCb = some "no-speech-expected" ∧
    (Stt.sttOnError Demo.sttEndingArmed "no-speech").state.errCounts =
      Demo.sttEndingArmed.errCounts :=
  ⟨by decide,
   ((c5_ending_phrase_suppression Demo.sttBase "thanks" (by decide)).1).1,
   ((c5_ending_phrase_suppression Demo.sttBase "thanks" (by decide)).2
      Demo.sttEndingArmed rfl).1 rfl |>.1,
   ((c5_ending_phrase_suppression Demo.sttBase "thanks" (by decide)).2
      Demo.sttEndingArmed rfl).1 rfl |>.2⟩

theorem tts_runQueue_le_one (q : List Tts.Chunk) :
    ∀ outs : List Bool, Tts.runQueue q outs ≤ 1 := by
  induction q with
  | nil => intro outs; simp [Tts.runQueue]
  | cons u rest ih =>
      intro outs
      cases outs with
      | nil => simp [Tts.runQueue]
      | cons ok os =>
          simp only [Tts.runQueue]
          split_ifs <;> first | omega | exact ih os

theorem tts_runQueue_exact (q' : List Tts.Chunk) :
    ∀ (u : Tts.Chunk) (b : Bool) (rest : List Bool),
      (∀ v ∈ q', v.isLast = false) → u.isLast = true →
      Tts.runQueue (q' ++ [u]) (List.replicate q'.length true ++ b :: rest) = 1 := by
  induction q' with
  | nil =>
      intro u b rest _ hu
      cases b <;> simp [Tts.runQueue, hu]
  | cons v vs ih =>
      intro u b rest hq hu
      have hv : v.isLast = false := hq v (by simp)
      simp only [List.cons_append, List.length_cons, List.replicate_succ, Tts.runQueue,
        if_true, hv, if_false, Bool.false_eq_true]
      exact ih u b rest (fun w hw => hq w (by simp [hw])) hu

theorem tts_buildQueueGo_cons (s : String) (rest : List String) (i total : Nat) :
    Tts.buildQueueGo (s :: rest) i total =
      if Tts.jsTrim s = "" then Tts.buildQueueGo rest (i + 1) total
      else ⟨Tts.jsTrim s, decide (i = 0), decide (i = total - 1)⟩ ::
        Tts.buildQueueGo rest (i + 1) total := rfl

theorem tts_buildQueueGo_decomp (sents : List String) :
    ∀ (i total : Nat), i + sents.length = total →
      ∀ slast, sents.getLast? = some slast → Tts.jsTrim slast ≠ "" →
      ∃ q' u, Tts.buildQueueGo sents i total = q' ++ [u] ∧ u.isLast = true ∧
        ∀ v ∈ q', v.isLast = false := by
  induction sents with
  | nil => intro i total _ slast h; simp at h
  | cons s rest ih =>
      intro i total htot slast hlast hne
      cases rest with
      | nil =>
          have hs : slast = s := by simpa using hlast.symm
          subst hs
          have hi : (i = total - 1) = True := by
            simp at htot; simp; omega
          refine ⟨[], ⟨Tts.jsTrim slast, decide (i = 0), decide (i = total - 1)⟩, ?_, ?_, ?_⟩
          · simp [Tts.buildQueueGo, hne]
          · simp [hi]
          · simp
      | cons r rs =>
          have hlast' : (r :: rs).getLast? = some slast := by
            simpa using hlast
          have htot' : (i + 1) + (r :: rs).length = total := by
            simp at htot ⊢; omega
          obtain ⟨q', u, heq, hu, hq'⟩ := ih (i + 1) total htot' slast hlast' hne
          by_cases hs : Tts.jsTrim s = ""
          · exact ⟨q', u, by rw [tts_buildQueueGo_cons, if_pos hs]; exact heq, hu, hq'⟩
          · refine ⟨⟨Tts.jsTrim s, decide (i = 0), decide (i = total - 1)⟩ :: q', u, ?_, hu, ?_⟩
            · rw [tts_buildQueueGo_cons, if_neg hs, heq]
              rfl
            · intro v hv
              rcases List.mem_cons.mp hv with h | h
              · subst h
                have : ¬(i = total - 1) := by simp at htot; omega
                simp [this]
              · exact hq' v h

/-- Claim C2 counterexample: `speak` on the non-empty text `"Hi. "` —
whose sentence split is `["Hi.", ""]` — queues a single chunk that does
not carry the terminal wiring (its index is not `sentences.length - 1`),
so even when every queued utterance ends normally the caller-visible
`onEnd` fires zero times, not exactly once. -/
theorem c2_counterexample :
    ("Hi. " ≠ "") ∧
    Tts.splitIntoSentences "Hi. " = ["Hi.", ""] ∧
    (Tts.buildQueue "Hi. ").length = 1 ∧
    Tts.onEndCount "Hi. " [true] = 0 := by
  exact ⟨by decide, by decide, by decide, by decide⟩

/-- Claim C2 (amended): one `speak` call fires the caller-visible `onEnd`
at most once for every text and every settlement pattern; and it fires
exactly once whenever the final element of the sentence split is
non-empty after trimming and every chunk before the final one ends
without error (an error on the final chunk included).  When the final
split element trims to empty — text ending in whitespace after closing
punctuation — or a non-final chunk errors, `onEnd` never fires. -/
theorem c2_onEnd_at_most_once :
    (∀ (text : String) (outs : List Bool), Tts.onEndCount text outs ≤ 1) ∧
    (∀ (text : String) (b : Bool) (rest : List Bool),
      Tts.lastIsRealSentence text = true →
      Tts.onEndCount text
        (List.replicate ((Tts.buildQueue text).length - 1) true ++ b :: rest) = 1) := by
  constructor
  · intro text outs
    exact tts_runQueue_le_one (Tts.buildQueue text) outs
  · intro text b rest h
    unfold Tts.lastIsRealSentence at h
    cases hl : (Tts.splitIntoSentences text).getLast? with
    | none => rw [hl] at h; simp at h
    | some slast =>
        rw [hl] at h
        have hne : Tts.jsTrim slast ≠ "" := by simpa using h
        obtain ⟨q', u, heq, hu, hq'⟩ :=
          tts_buildQueueGo_decomp (Tts.splitIntoSentences text) 0
            (Tts.splitIntoSentences text).length (by omega) slast hl hne
        have hbq : Tts.buildQueue text = q' ++ [u] := heq
        have hlen : (Tts.buildQueue text).length - 1 = q'.length := by
          rw [hbq]; simp
        unfold Tts.onEndCount
        rw [hlen, hbq]
        exact tts_runQueue_exact q' u b rest hq' hu

/-- Claim C2 witness: the amended guarantee applied to the concrete text
`"One. Two."` with an error on the final chunk — `onEnd` still fires
exactly once. -/
theorem c2_onEnd_witness :
    Tts.lastIsRealSentence "One. Two." = true ∧
    Tts.onEndCount "One. Two."
      (List.replicate ((Tts.buildQueue "One. Two.").length - 1) true ++ false :: []) = 1 :=
  ⟨by decide, c2_onEnd_at_most_once.2 "One. Two." false [] (by decide)⟩

theorem av_inv_requestLoad (s : AvatarImproved.AvState) (p : String) (ok : Bool)
    (h : AvatarImproved.avInv s) : AvatarImproved.avInv (AvatarImproved.requestLoad s p ok) := by
  obtain ⟨h1, h2⟩ := h
  unfold AvatarImproved.requestLoad AvatarImproved.avInv
  split_ifs with hc1 hc2 <;> simp_all

theorem av_inv_settleLoad (s : AvatarImproved.AvState) (ok : Bool)
    (h : AvatarImproved.avInv s) : AvatarImproved.avInv (AvatarImproved.settleLoad s ok) := by
  obtain ⟨h1, h2⟩ := h
  unfold AvatarImproved.settleLoad AvatarImproved.avInv
  cases hc : s.isLoadingAnimation with
  | false => simp_all
  | true =>
      cases hp : s.pendingAnimationChange with
      | none => simp_all
      | some q => cases ok <;> simp_all

theorem av_inv_step (s : AvatarImproved.AvState) (e : AvatarImproved.AvEvent)
    (h : AvatarImproved.avInv s) : AvatarImproved.avInv (AvatarImproved.avStep s e) := by
  cases e with
  | startTalk ok =>
      unfold AvatarImproved.avStep AvatarImproved.startTalking
      split_ifs with hc
      · exact h
      · exact av_inv_requestLoad _ _ _ (by exact ⟨h.1, h.2⟩)
  | stopTalk ok =>
      unfold AvatarImproved.avStep AvatarImproved.stopTalking
      split_ifs with hc
      · exact h
      · exact av_inv_requestLoad _ _ _ (by exact ⟨h.1, h.2⟩)
  | reqLoad p ok => exact av_inv_requestLoad s p ok h
  | settle ok => exact av_inv_settleLoad s ok h

theorem av_inv_run (evs : List AvatarImproved.AvEvent) :
    AvatarImproved.avInv (AvatarImproved.avRun evs) := by
  have gen : ∀ (l : List AvatarImproved.AvEvent) (s : AvatarImproved.AvState),
      AvatarImproved.avInv s → AvatarImproved.avInv (l.foldl AvatarImproved.avStep s) := by
    intro l
    induction l with
    | nil => intro s h; exact h
    | cons e l ih => intro s h; exact ih _ (av_inv_step s e h)
  exact gen evs AvatarImproved.avInit (by constructor <;> simp [AvatarImproved.avInit])

/-- Claim C8 counterexample: in the avatar controller of `js/avatar.js`
(the cited `loadAnimation`/`startTalking`), a `stopTalking` issued while
the `startTalking` load is still in flight starts a second engine load
immediately — two animation loads are concurrently in flight, and no
pending-target slot exists in this controller. -/
theorem c8_counterexample :
    (AvatarBasic.stopTalking (AvatarBasic.startTalking AvatarBasic.avInit)).loadsInFlight = 2 := by
  decide

/-- Claim C8 (amended): the in-flight guard described by the claim is
implemented by the improved `AvatarAnimator` iteration (the variant with
`isLoadingAnimation`/`pendingAnimationChange`), not by `js/avatar.js`.
For that iteration, along every event sequence at most one engine load is
in flight, a pending target exists only while a load is in flight, a
switch requested during a load only overwrites the single pending slot
(latest request wins), and on settlement the pending target becomes the
new in-flight load. -/
theorem c8_improved_single_load :
    (∀ evs : List AvatarImproved.AvEvent,
      (AvatarImproved.avRun evs).loadsInFlight ≤ 1) ∧
    (∀ evs : List AvatarImproved.AvEvent,
      AvatarImproved.avInv (AvatarImproved.avRun evs)) ∧
    (∀ (s : AvatarImproved.AvState) (p q : String) (ok1 ok2 : Bool),
      s.isLoadingAnimation = true →
      (AvatarImproved.requestLoad (AvatarImproved.requestLoad s p ok1) q
        ok2).pendingAnimationChange = some q) ∧
    (∀ (s : AvatarImproved.AvState) (q : String),
      s.isLoadingAnimation = true → s.pendingAnimationChange = some q →
      (AvatarImproved.settleLoad s true).loadingPath = some q ∧
      (AvatarImproved.settleLoad s true).pendingAnimationChange = none ∧
      (AvatarImproved.settleLoad s true).isLoadingAnimation = true) := by
  refine ⟨?_, av_inv_run, ?_, ?_⟩
  · intro evs
    have h := (av_inv_run evs).1
    rw [h]
    split <;> omega
  · intro s p q ok1 ok2 hl
    simp [AvatarImproved.requestLoad, hl]
  · intro s q hl hp
    refine ⟨?_, ?_, ?_⟩ <;> simp [AvatarImproved.settleLoad, hl, hp]

/-- Claim C8 witness: the improved-controller guarantees applied to a
concrete trace — a talking switch whose load is in flight, then an idle
switch recorded as the pending target, then further requests and the
settlement. -/
theorem c8_improved_witness :
    (AvatarImproved.avRun [AvatarImproved.AvEvent.startTalk true,
        AvatarImproved.AvEvent.stopTalk true]).loadsInFlight ≤ 1 ∧
    (AvatarImproved.requestLoad (AvatarImproved.requestLoad
        (AvatarImproved.avRun [AvatarImproved.AvEvent.startTalk true]) "A" true) "B"
        true).pendingAnimationChange = some "B" ∧
    (AvatarImproved.settleLoad (AvatarImproved.avRun [AvatarImproved.AvEvent.startTalk true,
        AvatarImproved.AvEvent.stopTalk true]) true).loadingPath =
      some AvatarImproved.idleAnimation :=
  ⟨c8_improved_single_load.1 _,
   c8_improved_single_load.2.2.1 _ "A" "B" true true (by decide),
   (c8_improved_single_load.2.2.2 _ AvatarImproved.idleAnimation (by decide) (by decide)).1⟩
